import Mathlib

/-!
Shallow embedding of the session-cart and order-placement subsystem of the
`noble-group-services` repository (Go), covering:

* `models.Cart` / `models.CartItem` / `Cart.CalculateTotals`
  (models package, Cart variant with `Count`, used by `crud`),
* the cart handlers in `crud/cart.go`
  (`AddToCart`, `UpdateCartItem`, `RemoveCartItem`, `ClearCart`),
* the checkout handler `CreateOrder` in `crud/orders.go`
  (validation logic, transaction, cart clearing),
* the `orders` / `order_items` relational schema from
  `models/schema_orders.sql`.

Machine integers of Go (`int`) are modelled as `Int`; none of the verified
properties depends on 64-bit wrap-around (they compare two computations that
would wrap identically).  Strings are modelled as Lean `String`
(`utf8.RuneCountInString` = `String.length`, both count Unicode scalar
values).  Randomness (`rand.Intn(1000000)`), UUIDs and the current year are
modelled as explicit inputs of the checkout function.  Failures of the
database driver are modelled by an explicit failure-injection oracle
`DbBehavior`.
-/

namespace NobleGroup

/-- Product, from `models/product.go`.  Only the attributes the cart and
order logic reads are kept (`ID`, `Name`, `Price`, `Stock`); the purely
descriptive attributes (slug, image, rating, …) are never consulted by the
cart/checkout code and are omitted. -/
structure Product where
  id : String
  name : String
  price : Int
  stock : Int
  deriving Repr, DecidableEq

/-- CartItem, from the models package: an embedded `Product` snapshot plus a
quantity. -/
structure CartItem where
  product : Product
  quantity : Int
  deriving Repr, DecidableEq

/-- Go promotes the embedded Product's fields: `item.ID`. -/
def CartItem.id (i : CartItem) : String := i.product.id

/-- Go promotes the embedded Product's fields: `item.Price`. -/
def CartItem.price (i : CartItem) : Int := i.product.price

/-- Cart, from the models package (the variant used by `crud/cart.go`, with
`Items`, `Total`, `Count`, `FinalTotal`). -/
structure Cart where
  items : List CartItem
  total : Int
  count : Int
  finalTotal : Int
  deriving Repr, DecidableEq

/-- `Cart.CalculateTotals`: recomputes `Total`, `FinalTotal` and `Count`
from the current lines by a single accumulating loop
(`total += item.Price * item.Quantity; count += item.Quantity`). -/
def Cart.calculateTotals (c : Cart) : Cart :=
  let total := c.items.foldl (fun acc item => acc + item.price * item.quantity) 0
  let count := c.items.foldl (fun acc item => acc + item.quantity) 0
  { c with total := total, finalTotal := total, count := count }

/-- The zero-value cart that `getCartUnsafe` creates on first access for a
session (`&models.Cart{Items: []models.CartItem{}}`). -/
def emptyCart : Cart := { items := [], total := 0, count := 0, finalTotal := 0 }

/-- Catalog lookup, modelling `db.Get(&product, "SELECT ... WHERE p.id = $1")`:
the first product row with the requested primary key, if any. -/
def lookupProduct (catalog : List Product) (pid : String) : Option Product :=
  catalog.find? (fun p => p.id == pid)

/-- The decoded body of `POST /cart`: `productId` plus the optional
`quantity` (a `*int` in Go, absent pointers decode to `nil`). -/
structure AddRequest where
  productID : String
  quantity : Option Int
  deriving Repr, DecidableEq

/-- Error outcomes of the cart handlers in `crud/cart.go` (each corresponds
to one `http.Error` call). -/
inductive CartError where
  /-- "productId is required" (HTTP 400). -/
  | missingProductID
  /-- "Product not found" (HTTP 404). -/
  | productNotFound
  /-- "Not enough stock" (HTTP 400). -/
  | insufficientStock
  /-- "Item not in cart" (HTTP 404). -/
  | itemNotInCart
  /-- "Invalid quantity" (HTTP 400). -/
  | invalidQuantity
  deriving Repr, DecidableEq

/-- The `for i := range cart.Items` loop of `AddToCart`: bump the quantity of
the first line matching `pid` by `qty` and stop (`break`). -/
def bumpFirst (items : List CartItem) (pid : String) (qty : Int) : List CartItem :=
  match items with
  | [] => []
  | i :: rest =>
    if i.id == pid then { i with quantity := i.quantity + qty } :: rest
    else i :: bumpFirst rest pid qty

/-- The quantity defaulting of `AddToCart`:
`qty := 1; if req.Quantity != nil && *req.Quantity > 0 { qty = *req.Quantity }`
— a `nil` or non-positive requested quantity silently becomes `1`. -/
def effectiveQty (q : Option Int) : Int :=
  match q with
  | some q => if q > 0 then q else 1
  | none => 1

/-- `AddToCart` from `crud/cart.go`, as a pure function of the catalog, the
session's current cart and the decoded request.  Faithful to the handler:
empty `productId` is rejected; the quantity defaults per `effectiveQty`;
the product is looked up; the stock check compares the stock against the
**requested** quantity only; then the quantity is merged into an existing
line for the product or a new line is appended, and totals are
recomputed. -/
def addToCart (catalog : List Product) (cart : Cart) (req : AddRequest) :
    Except CartError Cart :=
  if req.productID == "" then .error .missingProductID
  else
    let qty : Int := effectiveQty req.quantity
    match lookupProduct catalog req.productID with
    | none => .error .productNotFound
    | some product =>
      if product.stock < qty then .error .insufficientStock
      else
        let found := cart.items.any (fun i => i.id == req.productID)
        let items :=
          if found then bumpFirst cart.items req.productID qty
          else cart.items ++ [{ product := product, quantity := qty }]
        .ok (Cart.calculateTotals { cart with items := items })

/-- The update loop of `UpdateCartItem`: replace the quantity of the first
line matching `pid` and stop. -/
def setFirst (items : List CartItem) (pid : String) (qty : Int) : List CartItem :=
  match items with
  | [] => []
  | i :: rest =>
    if i.id == pid then { i with quantity := qty } :: rest
    else i :: setFirst rest pid qty

/-- `UpdateCartItem` from `crud/cart.go` (PATCH /cart/{id}): a non-positive
quantity is rejected as invalid; a product not in the cart is "Item not in
cart"; otherwise the quantity of the line is replaced (not added) and
totals are recomputed. -/
def updateCartItem (cart : Cart) (pid : String) (qty : Int) :
    Except CartError Cart :=
  if qty ≤ 0 then .error .invalidQuantity
  else if cart.items.any (fun i => i.id == pid) then
    .ok (Cart.calculateTotals { cart with items := setFirst cart.items pid qty })
  else .error .itemNotInCart

/-- The removal loop of `RemoveCartItem`: drop the first line matching `pid`
and stop. -/
def removeFirst (items : List CartItem) (pid : String) : List CartItem :=
  match items with
  | [] => []
  | i :: rest => if i.id == pid then rest else i :: removeFirst rest pid

/-- `RemoveCartItem` from `crud/cart.go` (DELETE /cart/{id}). -/
def removeCartItem (cart : Cart) (pid : String) : Except CartError Cart :=
  if cart.items.any (fun i => i.id == pid) then
    .ok (Cart.calculateTotals { cart with items := removeFirst cart.items pid })
  else .error .itemNotInCart

/-- `ClearCart` from `crud/cart.go`: empty the line list and recompute
totals. -/
def clearCart (cart : Cart) : Cart :=
  Cart.calculateTotals { cart with items := [] }

/-- One mutating cart operation, for stating properties of operation
sequences on a single session. -/
inductive CartOp where
  | add (req : AddRequest)
  | update (pid : String) (qty : Int)
  | remove (pid : String)
  | clear
  deriving Repr

/-- Apply one operation the way the handlers do: an operation that fails
returns before mutating the cart, so the cart is unchanged. -/
def applyOp (catalog : List Product) (cart : Cart) (op : CartOp) : Cart :=
  match op with
  | .add req =>
    match addToCart catalog cart req with
    | .ok c => c
    | .error _ => cart
  | .update pid qty =>
    match updateCartItem cart pid qty with
    | .ok c => c
    | .error _ => cart
  | .remove pid =>
    match removeCartItem cart pid with
    | .ok c => c
    | .error _ => cart
  | .clear => clearCart cart

/-- Run a sequence of cart operations for one session, starting from the
given cart. -/
def runOps (catalog : List Product) (cart : Cart) (ops : List CartOp) : Cart :=
  ops.foldl (applyOp catalog) cart

/-- The derived sum `Σ price × quantity` over a line list (the spec-side
definition of the subtotal). -/
def sumPrice (items : List CartItem) : Int :=
  (items.map (fun i => i.price * i.quantity)).sum

/-- The derived sum `Σ quantity` over a line list (the spec-side definition
of the item count). -/
def sumQty (items : List CartItem) : Int :=
  (items.map (fun i => i.quantity)).sum

/-- The invariant claimed for cached totals: they equal the sums derived
from the current lines. -/
def Cart.totalsConsistent (c : Cart) : Prop :=
  c.total = sumPrice c.items ∧ c.finalTotal = sumPrice c.items ∧
    c.count = sumQty c.items

/-! ## Checkout form validation (`crud/orders.go`, lines 77–139) -/

/-- CheckoutForm, from `models/checkout_form.go`.  The `*string` fields are
`Option String`. -/
structure CheckoutForm where
  customerType : String
  name : String
  phone : String
  email : String
  companyName : Option String
  bin : Option String
  address : String
  comment : Option String
  deriving Repr, DecidableEq

/-- ValidationErrorDetail from `crud/orders.go`: one `{field, message}`
entry. -/
structure ValidationErrorDetail where
  field : String
  message : String
  deriving Repr, DecidableEq

/-- Stripping non-digits, `regexp.MustCompile(given \D).ReplaceAllString(s, "")`;
Go's `len` of the resulting all-ASCII string equals the number of digit
characters kept. -/
def digitsOf (s : String) : List Char :=
  s.toList.filter Char.isDigit

/-- The anchored alternation `^(\+7|8|7)` of the phone regexp: the string
must begin with `+7`, `8` or `7`. -/
def phoneStartOk (s : String) : Bool :=
  match s.toList with
  | '+' :: '7' :: _ => true
  | '8' :: _ => true
  | '7' :: _ => true
  | _ => false

/-- Character class `[a-z0-9._%+\-]` of the email regexp (local part).
`Char.isLower`/`Char.isDigit` test the ASCII ranges, as RE2 does here. -/
def isLocalChar (c : Char) : Bool :=
  c.isLower || c.isDigit || c == '.' || c == '_' || c == '%' || c == '+' || c == '-'

/-- Character class `[a-z0-9.\-]` of the email regexp (domain part). -/
def isDomainChar (c : Char) : Bool :=
  c.isLower || c.isDigit || c == '.' || c == '-'

/-- Matching the domain half of the anchored email regexp,
`[a-z0-9.\-]+\.[a-z]{2,4}$`.  Because the TLD class `[a-z]{2,4}` contains no
dot and is anchored at the end of the string, the separating dot of any
match is necessarily the **last** dot of the domain, so the match is
equivalent to: the maximal run of trailing lowercase letters has length 2–4,
is preceded by a dot, and everything before that dot is a non-empty string
over the domain class. -/
def domainOk (b : String) : Bool :=
  let rev := b.toList.reverse
  let tldRev := rev.takeWhile Char.isLower
  let rest := rev.drop tldRev.length
  match rest with
  | '.' :: restTail =>
    decide (2 ≤ tldRev.length) && decide (tldRev.length ≤ 4) &&
      !restTail.isEmpty && restTail.all isDomainChar
  | _ => false

/-- Split a character list at the first occurrence of `c`: the part before
it, and — when `c` occurs — the part after it. -/
def breakAtChar (c : Char) (cs : List Char) : List Char × Option (List Char) :=
  match cs with
  | [] => ([], none)
  | x :: rest =>
    if x == c then ([], some rest)
    else
      let r := breakAtChar c rest
      (x :: r.1, r.2)

/-- The email check `emailRegex.MatchString` with the anchored pattern
`[a-z0-9._%+\-]+@[a-z0-9.\-]+\.[a-z]{2,4}` (start and end anchors).  Neither
character class contains `@`, so a matching string has exactly one `@`,
splitting it into a non-empty local part over the local class and a domain
matching `domainOk`. -/
def emailValid (s : String) : Bool :=
  match breakAtChar '@' s.toList with
  | (_, none) => false
  | (localPart, some rest) =>
    !(rest.any (fun c => c == '@')) && !localPart.isEmpty &&
      localPart.all isLocalChar && domainOk (String.mk rest)

/-- Go's `strings.TrimSpace(s) == ""`: the trim of leading and trailing
whitespace is empty exactly when every character of `s` is whitespace.
(Go trims the Unicode space class; the forms at issue are ASCII, where the
classes agree.) -/
def isBlank (s : String) : Bool :=
  s.toList.all Char.isWhitespace

/-- The name block of the validation logic:
`utf8.RuneCountInString(form.Name) < 2`. -/
def nameErrors (form : CheckoutForm) : List ValidationErrorDetail :=
  if form.name.length < 2 then
    [⟨"name", "Имя должно содержать минимум 2 символа"⟩]
  else []

/-- The phone block: the digit-count test first, and only when it passes,
the start-alternation test. -/
def phoneErrors (form : CheckoutForm) : List ValidationErrorDetail :=
  if (digitsOf form.phone).length < 10 then
    [⟨"phone", "Номер телефона должен содержать минимум 10 цифр"⟩]
  else if !phoneStartOk form.phone then
    [⟨"phone", "Номер телефона должен начинаться с +7, 7 или 8"⟩]
  else []

/-- The email block: `emailRegex.MatchString(form.Email)`. -/
def emailErrors (form : CheckoutForm) : List ValidationErrorDetail :=
  if !emailValid form.email then
    [⟨"email", "Некорректный e-mail"⟩]
  else []

/-- The address block: `utf8.RuneCountInString(form.Address) < 10`. -/
def addressErrors (form : CheckoutForm) : List ValidationErrorDetail :=
  if form.address.length < 10 then
    [⟨"address", "Адрес должен содержать минимум 10 символов"⟩]
  else []

/-- The companyName half of the legal-entity block:
`form.CompanyName == nil || strings.TrimSpace(*form.CompanyName) == ""`. -/
def companyErrors (form : CheckoutForm) : List ValidationErrorDetail :=
  match form.companyName with
  | none => [⟨"companyName", "Название компании обязательно для юридических лиц"⟩]
  | some cn =>
    if isBlank cn then
      [⟨"companyName", "Название компании обязательно для юридических лиц"⟩]
    else []

/-- The BIN half of the legal-entity block: a `nil` BIN, or one whose
digit-stripped form is not exactly 12 characters. -/
def binErrors (form : CheckoutForm) : List ValidationErrorDetail :=
  match form.bin with
  | none => [⟨"bin", "БИН обязателен для юридических лиц"⟩]
  | some b =>
    if (digitsOf b).length ≠ 12 then
      [⟨"bin", "БИН должен содержать ровно 12 цифр"⟩]
    else []

/-- The legal-entity block, guarded on `form.CustomerType == "legal"`. -/
def legalErrors (form : CheckoutForm) : List ValidationErrorDetail :=
  if form.customerType == "legal" then
    companyErrors form ++ binErrors form
  else []

/-- The validation block of `CreateOrder` (`crud/orders.go` lines 84–129):
each rule group appends its `{field, message}` entries to
`validationErrors` independently of the others (no early return between
blocks). -/
def validateCheckout (form : CheckoutForm) : List ValidationErrorDetail :=
  nameErrors form ++ phoneErrors form ++ emailErrors form ++
    addressErrors form ++ legalErrors form

/-! Spec-side statement of the validation rules, for the refinement claim
that every rule is evaluated and reported.  Each predicate is written from
the spec's wording, one per rule. -/

/-- Spec rule: "name: at least 2 characters" — violated when false. -/
def specNameOk (form : CheckoutForm) : Bool :=
  decide (2 ≤ form.name.length)

/-- Spec rule: "phone: at least 10 digits after stripping all non-digit
characters, and the original string must begin with one of `+7`, `7`, `8`"
— a single rule, violated when either half fails. -/
def specPhoneOk (form : CheckoutForm) : Bool :=
  decide (10 ≤ (digitsOf form.phone).length) && phoneStartOk form.phone

/-- Spec rule: "email: must match a conventional `local@domain.tld` shape". -/
def specEmailOk (form : CheckoutForm) : Bool :=
  emailValid form.email

/-- Spec rule: "address: at least 10 characters". -/
def specAddressOk (form : CheckoutForm) : Bool :=
  decide (10 ≤ form.address.length)

/-- Spec rule (legal only): "companyName must be present and non-blank
after trimming". -/
def specCompanyOk (form : CheckoutForm) : Bool :=
  match form.companyName with
  | none => false
  | some cn => !(isBlank cn)

/-- Spec rule (legal only): "BIN must be present and, after stripping
non-digits, exactly 12 digits long". -/
def specBinOk (form : CheckoutForm) : Bool :=
  match form.bin with
  | none => false
  | some b => decide ((digitsOf b).length = 12)

/-- The list of violated-rule field names the spec demands: one entry per
violated rule, in rule order, with the legal-entity rules applying only to
legal customers. -/
def specViolatedFields (form : CheckoutForm) : List String :=
  (if specNameOk form then [] else ["name"]) ++
  (if specPhoneOk form then [] else ["phone"]) ++
  (if specEmailOk form then [] else ["email"]) ++
  (if specAddressOk form then [] else ["address"]) ++
  (if form.customerType == "legal" then
    (if specCompanyOk form then [] else ["companyName"]) ++
    (if specBinOk form then [] else ["bin"])
   else [])

/-! ## Order placement (`crud/orders.go` `CreateOrder`) and the relational
schema (`models/schema_orders.sql`) -/

/-- A row of the `orders` table (`models/schema_orders.sql`).  The schema
declares `order_number VARCHAR(50) NOT NULL` with **no** UNIQUE constraint;
only `id` is a primary key. -/
structure OrderRow where
  id : String
  orderNumber : String
  customerName : String
  customerPhone : String
  customerEmail : String
  address : String
  customerType : String
  companyName : Option String
  bin : Option String
  comment : Option String
  total : Int
  status : String
  deriving Repr, DecidableEq

/-- A row of the `order_items` table. -/
structure OrderItemRow where
  id : String
  orderId : String
  productId : String
  quantity : Int
  price : Int
  deriving Repr, DecidableEq

/-- The durable order store: the two tables written by `CreateOrder`. -/
structure Database where
  orders : List OrderRow
  orderItems : List OrderItemRow
  deriving Repr, DecidableEq

/-- Failure injection for the database driver: which of the fallible calls
of the checkout transaction fail (environmental errors surfaced by
`db.Beginx`, `tx.Exec`, `tx.Commit`). -/
structure DbBehavior where
  beginFails : Bool
  insertOrderFails : Bool
  /-- Whether the `tx.Exec` inserting the i-th order item fails. -/
  itemInsertFails : Nat → Bool
  commitFails : Bool

/-- The decimal digit characters of Go's `fmt` verbs. -/
def digitChar (d : Nat) : Char := Char.ofNat (48 + d)

/-- Go's `fmt.Sprintf("%06d", n)` for an argument in `[0, 10^6)` (the range
of `rand.Intn(1000000)`): exactly six zero-padded decimal digits. -/
def pad6 (n : Fin 1000000) : String :=
  String.mk [digitChar (n.val / 100000 % 10), digitChar (n.val / 10000 % 10),
    digitChar (n.val / 1000 % 10), digitChar (n.val / 100 % 10),
    digitChar (n.val / 10 % 10), digitChar (n.val % 10)]

/-- The generated human-facing order number,
`fmt.Sprintf("ORD-%d-%06d", time.Now().Year(), rand.Intn(1000000))`, as a
function of the sampled year and random draw. -/
def orderNumberStr (year : Nat) (draw : Fin 1000000) : String :=
  "ORD-" ++ toString year ++ "-" ++ pad6 draw

/-- The process state `CreateOrder` touches: the in-memory session-keyed
cart map (`carts`) and the durable order store. -/
structure CheckoutState where
  carts : List (String × Cart)
  db : Database
  deriving Repr, DecidableEq

/-- `getCartUnsafe`: return the session's cart, creating and storing an
empty one on first access.  Returns the cart together with the (possibly
extended) map, since Go mutates the shared map. -/
def getCartUnsafe (carts : List (String × Cart)) (sid : String) :
    Cart × List (String × Cart) :=
  match carts.find? (fun e => e.1 == sid) with
  | some e => (e.2, carts)
  | none => (emptyCart, carts ++ [(sid, emptyCart)])

/-- Pure read of a session's cart as the handlers observe it: the stored
cart, or the empty cart a first access would create. -/
def lookupCart (carts : List (String × Cart)) (sid : String) : Cart :=
  match carts.find? (fun e => e.1 == sid) with
  | some e => e.2
  | none => emptyCart

/-- Store an updated cart back under its session key (Go mutates the cart
through the shared pointer held in the map). -/
def setCart (carts : List (String × Cart)) (sid : String) (c : Cart) :
    List (String × Cart) :=
  carts.map (fun e => if e.1 == sid then (e.1, c) else e)

/-- Error outcomes of `CreateOrder` (each corresponds to one error response
of the handler). -/
inductive CreateOrderError where
  /-- "X-Session-ID header is required" (HTTP 400). -/
  | missingSession
  /-- "Cart is empty" (HTTP 400). -/
  | emptyCart
  /-- "Invalid request body" (HTTP 400): the JSON body failed to decode. -/
  | invalidBody
  /-- "VALIDATION_ERROR" with its `{field, message}` details (HTTP 400). -/
  | validationFailed (details : List ValidationErrorDetail)
  /-- "Database error" (HTTP 500): `db.Beginx` failed. -/
  | databaseError
  /-- "Failed to create order" (HTTP 500): inserting the order row failed. -/
  | insertOrderFailed
  /-- "Failed to create order items" (HTTP 500): inserting an item row failed. -/
  | insertItemsFailed
  /-- "Failed to commit order" (HTTP 500): `tx.Commit` failed. -/
  | commitFailed
  deriving Repr, DecidableEq

/-- The success payload of `CreateOrder`: `{orderId, orderNumber, total}`
(plus a constant `success: true`). -/
structure CheckoutResponse where
  orderId : String
  orderNumber : String
  total : Int
  deriving Repr, DecidableEq

/-- `CreateOrder` from `crud/orders.go`, as a state-passing function.

Inputs standing for effects: `sessionID` is the `X-Session-ID` header (`""`
when absent); `body` is the decoded checkout form (`none` when JSON
decoding fails); `oid` is the `uuid.New().String()` order id; `year` and
`draw` are `time.Now().Year()` and `rand.Intn(1000000)`; `newItemId i` is
the UUID generated for the i-th order-item row; `beh` injects driver
failures.

The staged transaction writes become visible in the returned state only on
the commit path; every earlier `return` leaves the deferred
`tx.Rollback()` to discard them, so the database component is unchanged on
all error paths.  The cart is cleared — and the session map updated — only
after the commit succeeds, with the response total captured from the
cart's `FinalTotal` before the clear. -/
def createOrder (sessionID : String) (body : Option CheckoutForm)
    (oid : String) (year : Nat) (draw : Fin 1000000)
    (newItemId : Nat → String) (beh : DbBehavior) (st : CheckoutState) :
    Except CreateOrderError CheckoutResponse × CheckoutState :=
  if sessionID == "" then (.error .missingSession, st)
  else
    let read := getCartUnsafe st.carts sessionID
    let cart := read.1
    let st1 : CheckoutState := { st with carts := read.2 }
    if cart.items.length == 0 then (.error .emptyCart, st1)
    else
      match body with
      | none => (.error .invalidBody, st1)
      | some form =>
        let validationErrors := validateCheckout form
        if 0 < validationErrors.length then
          (.error (.validationFailed validationErrors), st1)
        else
          let orderNumber := orderNumberStr year draw
          if beh.beginFails then (.error .databaseError, st1)
          else if beh.insertOrderFails then (.error .insertOrderFailed, st1)
          else if (List.range cart.items.length).any beh.itemInsertFails then
            (.error .insertItemsFailed, st1)
          else if beh.commitFails then (.error .commitFailed, st1)
          else
            let orderRow : OrderRow :=
              { id := oid, orderNumber := orderNumber,
                customerName := form.name, customerPhone := form.phone,
                customerEmail := form.email, address := form.address,
                customerType := form.customerType,
                companyName := form.companyName, bin := form.bin,
                comment := form.comment, total := cart.finalTotal,
                status := "new" }
            let itemRows : List OrderItemRow :=
              (cart.items.enum).map (fun p =>
                { id := newItemId p.1, orderId := oid,
                  productId := p.2.id, quantity := p.2.quantity,
                  price := p.2.price })
            let db2 : Database :=
              { orders := st.db.orders ++ [orderRow],
                orderItems := st.db.orderItems ++ itemRows }
            let finalTotal := cart.finalTotal
            let cleared := Cart.calculateTotals { cart with items := [] }
            let carts2 := setCart read.2 sessionID cleared
            (.ok { orderId := oid, orderNumber := orderNumber,
                   total := finalTotal },
             { carts := carts2, db := db2 })

/-- The persistence-failure class of checkout errors: those produced by a
failing transaction call, after which the deferred rollback guarantees no
partial write. -/
def CreateOrderError.isPersistence : CreateOrderError → Bool
  | .databaseError => true
  | .insertOrderFailed => true
  | .insertItemsFailed => true
  | .commitFailed => true
  | _ => false

/-- A database behavior with no injected failures. -/
def DbBehavior.ok : DbBehavior :=
  { beginFails := false, insertOrderFails := false,
    itemInsertFails := fun _ => false, commitFails := false }

/-- Total quantity recorded for one product across a line list. -/
def qtyOf (items : List CartItem) (pid : String) : Int :=
  sumQty (items.filter (fun i => i.id == pid))

/-! ## Helper lemmas about totals -/

theorem foldl_add_price (items : List CartItem) (init : Int) :
    items.foldl (fun acc i => acc + i.price * i.quantity) init
      = init + sumPrice items := by
  induction items generalizing init with
  | nil => simp [sumPrice]
  | cons i rest ih =>
    simp only [List.foldl_cons, ih, sumPrice, List.map_cons, List.sum_cons]
    ring

theorem foldl_add_qty (items : List CartItem) (init : Int) :
    items.foldl (fun acc i => acc + i.quantity) init = init + sumQty items := by
  induction items generalizing init with
  | nil => simp [sumQty]
  | cons i rest ih =>
    simp only [List.foldl_cons, ih, sumQty, List.map_cons, List.sum_cons]
    ring

theorem calculateTotals_items (c : Cart) : (c.calculateTotals).items = c.items := rfl

theorem calculateTotals_consistent (c : Cart) :
    (c.calculateTotals).totalsConsistent := by
  unfold Cart.calculateTotals Cart.totalsConsistent
  refine ⟨?_, ?_, ?_⟩ <;>
    simp [foldl_add_price, foldl_add_qty]

theorem emptyCart_consistent : emptyCart.totalsConsistent := by
  refine ⟨rfl, rfl, rfl⟩

/-! ## Inversion lemmas for the cart operations -/

theorem addToCart_ok {catalog : List Product} {cart : Cart} {req : AddRequest}
    {c' : Cart} (h : addToCart catalog cart req = .ok c') :
    ∃ items, c' = Cart.calculateTotals { cart with items := items } := by
  unfold addToCart at h
  dsimp only at h
  repeat' split at h
  all_goals first
    | (exact ⟨_, (Except.ok.inj h).symm⟩)
    | (simp at h)

theorem updateCartItem_ok {cart : Cart} {pid : String} {qty : Int} {c' : Cart}
    (h : updateCartItem cart pid qty = .ok c') :
    ∃ items, c' = Cart.calculateTotals { cart with items := items } := by
  unfold updateCartItem at h
  split at h
  · simp at h
  · split at h
    · exact ⟨_, (Except.ok.inj h).symm⟩
    · simp at h

theorem removeCartItem_ok {cart : Cart} {pid : String} {c' : Cart}
    (h : removeCartItem cart pid = .ok c') :
    ∃ items, c' = Cart.calculateTotals { cart with items := items } := by
  unfold removeCartItem at h
  split at h
  · exact ⟨_, (Except.ok.inj h).symm⟩
  · simp at h

theorem applyOp_consistent (catalog : List Product) (c : Cart) (op : CartOp)
    (h : c.totalsConsistent) : (applyOp catalog c op).totalsConsistent := by
  cases op with
  | add req =>
    dsimp only [applyOp]
    cases hc : addToCart catalog c req with
    | ok c' =>
      obtain ⟨items, rfl⟩ := addToCart_ok hc
      exact calculateTotals_consistent _
    | error e => exact h
  | update pid qty =>
    dsimp only [applyOp]
    cases hc : updateCartItem c pid qty with
    | ok c' =>
      obtain ⟨items, rfl⟩ := updateCartItem_ok hc
      exact calculateTotals_consistent _
    | error e => exact h
  | remove pid =>
    dsimp only [applyOp]
    cases hc : removeCartItem c pid with
    | ok c' =>
      obtain ⟨items, rfl⟩ := removeCartItem_ok hc
      exact calculateTotals_consistent _
    | error e => exact h
  | clear => exact calculateTotals_consistent _

theorem addToCart_ok_inv {catalog : List Product} {cart : Cart}
    {req : AddRequest} {c' : Cart} (h : addToCart catalog cart req = .ok c') :
    ∃ product, lookupProduct catalog req.productID = some product ∧
      ¬ product.stock < effectiveQty req.quantity ∧
      c' = Cart.calculateTotals { cart with items :=
        (if cart.items.any (fun i => i.id == req.productID)
         then bumpFirst cart.items req.productID (effectiveQty req.quantity)
         else cart.items ++
           [{ product := product, quantity := effectiveQty req.quantity }]) } := by
  unfold addToCart at h
  split at h
  · simp at h
  · dsimp only at h
    split at h
    · simp at h
    · rename_i product hlook
      split at h
      · simp at h
      · rename_i hstock
        exact ⟨product, hlook, hstock, (Except.ok.inj h).symm⟩

theorem updateCartItem_ok_inv {cart : Cart} {pid : String} {qty : Int}
    {c' : Cart} (h : updateCartItem cart pid qty = .ok c') :
    c' = Cart.calculateTotals { cart with items := setFirst cart.items pid qty } := by
  unfold updateCartItem at h
  split at h
  · simp at h
  · split at h
    · exact (Except.ok.inj h).symm
    · simp at h

theorem removeCartItem_ok_inv {cart : Cart} {pid : String} {c' : Cart}
    (h : removeCartItem cart pid = .ok c') :
    c' = Cart.calculateTotals { cart with items := removeFirst cart.items pid } := by
  unfold removeCartItem at h
  split at h
  · exact (Except.ok.inj h).symm
  · simp at h

theorem lookupProduct_id {catalog : List Product} {pid : String}
    {product : Product} (h : lookupProduct catalog pid = some product) :
    product.id = pid := by
  unfold lookupProduct at h
  simpa using List.find?_some h

theorem bumpFirst_map_id (items : List CartItem) (pid : String) (qty : Int) :
    (bumpFirst items pid qty).map CartItem.id = items.map CartItem.id := by
  induction items with
  | nil => rfl
  | cons i rest ih =>
    unfold bumpFirst
    split
    · simp [CartItem.id]
    · simp [ih]

theorem setFirst_map_id (items : List CartItem) (pid : String) (qty : Int) :
    (setFirst items pid qty).map CartItem.id = items.map CartItem.id := by
  induction items with
  | nil => rfl
  | cons i rest ih =>
    unfold setFirst
    split
    · simp [CartItem.id]
    · simp [ih]

theorem removeFirst_sublist (items : List CartItem) (pid : String) :
    (removeFirst items pid).Sublist items := by
  induction items with
  | nil => exact List.Sublist.refl _
  | cons i rest ih =>
    unfold removeFirst
    split
    · exact List.sublist_cons_self i rest
    · exact List.Sublist.cons₂ i ih

theorem cartIds_nodup_applyOp (catalog : List Product) (c : Cart) (op : CartOp)
    (h : (c.items.map CartItem.id).Nodup) :
    ((applyOp catalog c op).items.map CartItem.id).Nodup := by
  cases op with
  | add req =>
    dsimp only [applyOp]
    cases hc : addToCart catalog c req with
    | error e => exact h
    | ok c' =>
      obtain ⟨product, hlook, _, rfl⟩ := addToCart_ok_inv hc
      rw [calculateTotals_items]
      split
      · rw [bumpFirst_map_id]; exact h
      · rename_i hany
        have hid : product.id = req.productID := lookupProduct_id hlook
        rw [List.map_append, List.map_cons, List.map_nil]
        rw [List.nodup_append]
        refine ⟨h, List.nodup_singleton _, ?_⟩
        intro a ha hb
        simp only [List.mem_singleton] at hb
        subst hb
        have hall := List.any_eq_false.mp (Bool.not_eq_true _ ▸ hany)
        obtain ⟨i, hi, hieq⟩ := List.mem_map.mp ha
        have hip : i.id = req.productID := by
          simpa [CartItem.id, hid] using hieq
        exact (hall i hi) (by simp [hip])
  | update pid qty =>
    dsimp only [applyOp]
    cases hc : updateCartItem c pid qty with
    | error e => exact h
    | ok c' =>
      rw [updateCartItem_ok_inv hc, calculateTotals_items, setFirst_map_id]
      exact h
  | remove pid =>
    dsimp only [applyOp]
    cases hc : removeCartItem c pid with
    | error e => exact h
    | ok c' =>
      rw [removeCartItem_ok_inv hc, calculateTotals_items]
      exact List.Nodup.sublist ((removeFirst_sublist c.items pid).map CartItem.id) h
  | clear => exact List.nodup_nil

theorem bumpFirst_append_of_no_match (l l' : List CartItem) (pid : String)
    (qty : Int) (h : ∀ i ∈ l, i.id ≠ pid) :
    bumpFirst (l ++ l') pid qty = l ++ bumpFirst l' pid qty := by
  induction l with
  | nil => simp
  | cons i rest ih =>
    have hi : (i.id == pid) = false := by
      simpa using h i (List.mem_cons_self i rest)
    simp only [List.cons_append, bumpFirst, hi]
    simp only [Bool.false_eq_true, if_false, List.cons.injEq, true_and]
    exact ih (fun j hj => h j (List.mem_cons_of_mem i hj))

theorem filter_id_eq_nil (l : List CartItem) (pid : String)
    (h : ∀ i ∈ l, i.id ≠ pid) :
    l.filter (fun i => i.id == pid) = [] := by
  rw [List.filter_eq_nil_iff]
  intro a ha
  simpa using h a ha

/-- C4: After any finite sequence of AddToCart, UpdateCartItem,
RemoveCartItem, and ClearCart operations on one session's cart, the cart's
cached `Total` (and `FinalTotal`) equals the sum of price × quantity over
the current lines, and its cached `Count` equals the sum of the
quantities; totals are recomputed on every mutation, never left stale. -/
theorem cart_totals_always_consistent (catalog : List Product)
    (ops : List CartOp) : (runOps catalog emptyCart ops).totalsConsistent := by
  unfold runOps
  suffices h : ∀ c : Cart, c.totalsConsistent →
      (ops.foldl (applyOp catalog) c).totalsConsistent from
    h _ emptyCart_consistent
  induction ops with
  | nil => exact fun c hc => hc
  | cons op rest ih =>
    exact fun c hc => ih _ (applyOp_consistent catalog c op hc)

/-! ## Helper lemmas about the session cart store -/

theorem getCartUnsafe_fst (carts : List (String × Cart)) (sid : String) :
    (getCartUnsafe carts sid).1 = lookupCart carts sid := by
  unfold getCartUnsafe lookupCart
  cases h : carts.find? (fun e => e.1 == sid) <;> simp [h]

theorem lookupCart_getCartUnsafe_snd (carts : List (String × Cart))
    (sid : String) :
    lookupCart (getCartUnsafe carts sid).2 sid = lookupCart carts sid := by
  unfold getCartUnsafe
  cases h : carts.find? (fun e => e.1 == sid) with
  | some e => simp
  | none =>
    unfold lookupCart
    rw [List.find?_append, h]
    simp [h]

theorem find?_of_items_ne_nil (carts : List (String × Cart)) (sid : String)
    (h : (lookupCart carts sid).items ≠ []) :
    ∃ e, carts.find? (fun e => e.1 == sid) = some e ∧
      e.2 = lookupCart carts sid := by
  unfold lookupCart at h ⊢
  cases hf : carts.find? (fun e => e.1 == sid) with
  | some e => exact ⟨e, rfl, rfl⟩
  | none =>
    rw [hf] at h
    exact absurd rfl h

theorem lookupCart_setCart (carts : List (String × Cart)) (sid : String)
    (c : Cart) (h : (carts.find? (fun e => e.1 == sid)).isSome) :
    lookupCart (setCart carts sid c) sid = c := by
  induction carts with
  | nil => simp [List.find?] at h
  | cons e rest ih =>
    by_cases he : (e.1 == sid) = true
    · unfold setCart lookupCart
      simp only [List.map_cons, he, if_true]
      rw [List.find?_cons_of_pos _ (by simpa using he)]
    · unfold setCart lookupCart
      simp only [List.map_cons, he, Bool.false_eq_true, if_false]
      rw [List.find?_cons_of_neg _ (by simpa using he)]
      rw [List.find?_cons_of_neg _ (by simpa using he)] at h
      exact ih h

/-! ## Sample values used by witnesses and counterexamples -/

/-- A sample catalog product. -/
def pSample : Product := { id := "p1", name := "Boiler", price := 12500, stock := 5 }

/-- A one-product sample catalog. -/
def catalogSample : List Product := [pSample]

/-- A checkout form that passes every validation rule (mirrors the valid
form of the repository's handler tests). -/
def formSample : CheckoutForm :=
  { customerType := "individual", name := "Test Customer",
    phone := "+77001234567", email := "test@example.com",
    companyName := none, bin := none,
    address := "Test Address 123, City", comment := none }

/-- C5: For every cart and every product P, two accepted AddToCart calls
for P with quantities q1 and q2 leave exactly one cart line for P with
quantity q1+q2; a cart never contains two lines with the same productID,
and a repeated add merges additively rather than appending. -/
theorem addToCart_merges_duplicates :
    (∀ (catalog : List Product) (cart : Cart) (pid : String) (q1 q2 : Int)
        (c1 c2 : Cart),
        (∀ i ∈ cart.items, i.id ≠ pid) → 0 < q1 → 0 < q2 →
        addToCart catalog cart { productID := pid, quantity := some q1 } = .ok c1 →
        addToCart catalog c1 { productID := pid, quantity := some q2 } = .ok c2 →
        ∃ line, c2.items.filter (fun i => i.id == pid) = [line] ∧
          line.quantity = q1 + q2) ∧
    (∀ (catalog : List Product) (ops : List CartOp),
        ((runOps catalog emptyCart ops).items.map CartItem.id).Nodup) := by
  constructor
  · intro catalog cart pid q1 q2 c1 c2 hfresh hq1 hq2 h1 h2
    obtain ⟨p1, hlook1, _, hc1⟩ := addToCart_ok_inv h1
    obtain ⟨p2, hlook2, _, hc2⟩ := addToCart_ok_inv h2
    have hq1' : effectiveQty (some q1) = q1 := by
      simp [effectiveQty, hq1]
    have hq2' : effectiveQty (some q2) = q2 := by
      simp [effectiveQty, hq2]
    have hany1 : (cart.items.any fun i => i.id == pid) = false := by
      rw [List.any_eq_false]
      intro i hi
      simp [hfresh i hi]
    have hitems1 : c1.items = cart.items ++ [{ product := p1, quantity := q1 }] := by
      rw [hc1, calculateTotals_items]
      simp [hany1, hq1']
    have hid1 : p1.id = pid := lookupProduct_id hlook1
    have hany2 : (c1.items.any fun i => i.id == pid) = true := by
      rw [hitems1]
      simp [List.any_append, CartItem.id, hid1]
    have hitems2 : c2.items = cart.items ++ [{ product := p1, quantity := q1 + q2 }] := by
      rw [hc2, calculateTotals_items]
      simp only [hany2, if_true]
      rw [hq2', hitems1, bumpFirst_append_of_no_match _ _ _ _ hfresh]
      simp [bumpFirst, CartItem.id, hid1]
    refine ⟨{ product := p1, quantity := q1 + q2 }, ?_, rfl⟩
    rw [hitems2, List.filter_append, filter_id_eq_nil _ _ hfresh]
    simp [CartItem.id, hid1]
  · intro catalog ops
    unfold runOps
    suffices h : ∀ c : Cart, (c.items.map CartItem.id).Nodup →
        ((ops.foldl (applyOp catalog) c).items.map CartItem.id).Nodup from
      h _ (by simp [emptyCart])
    induction ops with
    | nil => exact fun c hc => hc
    | cons op rest ih =>
      exact fun c hc => ih _ (cartIds_nodup_applyOp catalog c op hc)

/-- Witness for C5: adding product `p1` twice with quantities 2 and 3 to an
initially empty cart yields exactly one line of quantity 5. -/
theorem addToCart_merges_duplicates_witness :
    ∃ line,
      (({ items := [{ product := pSample, quantity := 5 }], total := 62500,
          count := 5, finalTotal := 62500 } : Cart).items.filter
        (fun i => i.id == "p1")) = [line] ∧ line.quantity = 2 + 3 :=
  addToCart_merges_duplicates.1 catalogSample emptyCart "p1" 2 3
    { items := [{ product := pSample, quantity := 2 }], total := 25000,
      count := 2, finalTotal := 25000 }
    { items := [{ product := pSample, quantity := 5 }], total := 62500,
      count := 5, finalTotal := 62500 }
    (by simp [emptyCart]) (by decide) (by decide) rfl rfl

/-- C2 counterexample: with stock 5, two AddToCart calls of quantity 3 for
the same product are both accepted even though the merged quantity 6
exceeds the stock, leaving a single cart line of quantity 6 — the second
call does not fail with InsufficientStock as the claim requires. -/
theorem addToCart_merged_stock_counterexample :
    ∃ c1 c2 : Cart,
      addToCart catalogSample emptyCart
        { productID := "p1", quantity := some 3 } = .ok c1 ∧
      addToCart catalogSample c1
        { productID := "p1", quantity := some 3 } = .ok c2 ∧
      pSample.stock < 3 + 3 ∧
      c2.items.map CartItem.quantity = [6] :=
  ⟨{ items := [{ product := pSample, quantity := 3 }], total := 37500,
     count := 3, finalTotal := 37500 },
   { items := [{ product := pSample, quantity := 6 }], total := 75000,
     count := 6, finalTotal := 75000 },
   rfl, rfl, by decide, rfl⟩

/-- C2 amended: AddToCart fails with InsufficientStock exactly when the
**requested** quantity alone (after defaulting) exceeds the product's
available stock; the quantity already in the cart line is not part of the
check, so an accepted add can leave a merged line whose quantity exceeds
the product's stock. -/
theorem addToCart_stock_check_requested_only :
    ∀ (catalog : List Product) (cart : Cart) (req : AddRequest)
      (product : Product),
      req.productID ≠ "" →
      lookupProduct catalog req.productID = some product →
      (addToCart catalog cart req = .error .insufficientStock ↔
        product.stock < effectiveQty req.quantity) := by
  intro catalog cart req product hpid hlook
  have hp : (req.productID == "") = false := by
    simpa using hpid
  unfold addToCart
  simp only [hp, Bool.false_eq_true, if_false, hlook]
  constructor
  · intro h
    by_contra hs
    rw [if_neg hs] at h
    simp at h
  · intro hs
    rw [if_pos hs]

/-- Witness for the amended C2: requesting 6 units with stock 5 is exactly
an InsufficientStock failure. -/
theorem addToCart_stock_check_requested_only_witness :
    addToCart catalogSample emptyCart
        { productID := "p1", quantity := some 6 } = .error .insufficientStock ↔
      pSample.stock < effectiveQty (some 6) :=
  addToCart_stock_check_requested_only catalogSample emptyCart
    { productID := "p1", quantity := some 6 } pSample (by decide) rfl

theorem qtyOf_append (l l' : List CartItem) (pid : String) :
    qtyOf (l ++ l') pid = qtyOf l pid + qtyOf l' pid := by
  simp [qtyOf, sumQty, List.filter_append]

theorem qtyOf_bumpFirst (items : List CartItem) (pid : String) (qty : Int)
    (h : (items.any fun i => i.id == pid) = true) :
    qtyOf (bumpFirst items pid qty) pid = qtyOf items pid + qty := by
  induction items with
  | nil => simp at h
  | cons i rest ih =>
    by_cases hi : (i.id == pid) = true
    · simp only [bumpFirst, hi, if_true]
      simp only [qtyOf, sumQty, List.filter_cons]
      have : CartItem.id { i with quantity := i.quantity + qty } = i.id := rfl
      simp only [this, hi, if_true]
      simp only [List.map_cons, List.sum_cons]
      ring
    · have hrest : (rest.any fun i => i.id == pid) = true := by
        simp only [List.any_cons, hi, Bool.false_or] at h
        exact h
      simp only [bumpFirst, hi, Bool.false_eq_true, if_false]
      simp only [qtyOf, sumQty, List.filter_cons, hi, Bool.false_eq_true,
        if_false] at ih ⊢
      exact ih hrest

/-- C10: For every AddToCart request whose quantity field is absent or not
a positive integer, naming an existing product with stock at least 1, the
call does not fail with an invalid-quantity error: it silently treats the
quantity as 1 and succeeds, adding or merging exactly one unit of the
product. -/
theorem addToCart_defaults_quantity_to_one :
    ∀ (catalog : List Product) (cart : Cart) (pid : String) (q : Option Int)
      (product : Product),
      pid ≠ "" →
      lookupProduct catalog pid = some product →
      1 ≤ product.stock →
      (q = none ∨ ∃ v, q = some v ∧ v ≤ 0) →
      ∃ c', addToCart catalog cart { productID := pid, quantity := q } = .ok c' ∧
        qtyOf c'.items pid = qtyOf cart.items pid + 1 := by
  intro catalog cart pid q product hpid hlook hstock hq
  have hp : (pid == "") = false := by
    simpa using hpid
  have hqe : effectiveQty q = 1 := by
    rcases hq with rfl | ⟨v, rfl, hv⟩
    · rfl
    · simp only [effectiveQty]
      rw [if_neg (by omega)]
  have hstock' : ¬ product.stock < effectiveQty q := by
    rw [hqe]; omega
  by_cases hfound : (cart.items.any fun i => i.id == pid) = true
  · refine ⟨Cart.calculateTotals
      { cart with items := bumpFirst cart.items pid (effectiveQty q) }, ?_, ?_⟩
    · unfold addToCart
      simp only [hp, Bool.false_eq_true, if_false, hlook, hstock', if_false,
        hfound, if_true]
    · rw [calculateTotals_items, hqe]
      exact qtyOf_bumpFirst _ _ _ hfound
  · refine ⟨Cart.calculateTotals
      { cart with items :=
          cart.items ++ [{ product := product, quantity := effectiveQty q }] },
      ?_, ?_⟩
    · unfold addToCart
      simp only [hp, Bool.false_eq_true, if_false, hlook, hstock', if_false,
        hfound, if_true]
    · rw [calculateTotals_items, qtyOf_append, hqe]
      have hid : product.id = pid := lookupProduct_id hlook
      simp [qtyOf, sumQty, CartItem.id, hid]

/-- Witness for C10: an explicit quantity 0 on a product with stock 5 is
accepted and adds one unit. -/
theorem addToCart_defaults_quantity_to_one_witness :
    ∃ c', addToCart catalogSample emptyCart
        { productID := "p1", quantity := some 0 } = .ok c' ∧
      qtyOf c'.items "p1" = qtyOf emptyCart.items "p1" + 1 :=
  addToCart_defaults_quantity_to_one catalogSample emptyCart "p1" (some 0)
    pSample (by decide) rfl (by decide) (Or.inr ⟨0, rfl, by decide⟩)

/-- C7: Checking out a session whose cart has zero lines fails with
EmptyCart before validation or any storage write — regardless of the
request body (which is not even decoded yet) and of the database
behavior; no order row is ever created from an empty cart. -/
theorem createOrder_empty_cart_fails :
    ∀ (sid : String) (body : Option CheckoutForm) (oid : String) (year : Nat)
      (draw : Fin 1000000) (newItemId : Nat → String) (beh : DbBehavior)
      (st : CheckoutState),
      sid ≠ "" →
      (lookupCart st.carts sid).items = [] →
      (createOrder sid body oid year draw newItemId beh st).1 =
          .error .emptyCart ∧
        (createOrder sid body oid year draw newItemId beh st).2.db = st.db := by
  intro sid body oid year draw newItemId beh st hsid hempty
  have hs : (sid == "") = false := by simpa using hsid
  have hitems : (getCartUnsafe st.carts sid).1.items = [] := by
    rw [getCartUnsafe_fst]
    exact hempty
  unfold createOrder
  simp only [hs, Bool.false_eq_true, if_false, hitems, List.length_nil]
  exact ⟨rfl, rfl⟩

/-- Witness for C7: a fresh session with no cart fails EmptyCart and
writes nothing. -/
theorem createOrder_empty_cart_fails_witness :
    (createOrder "s1" (some formSample) "oid-1" 2026 ⟨7, by decide⟩
          (fun i => "item-" ++ toString i) DbBehavior.ok
          { carts := [], db := { orders := [], orderItems := [] } }).1 =
        .error .emptyCart ∧
      (createOrder "s1" (some formSample) "oid-1" 2026 ⟨7, by decide⟩
          (fun i => "item-" ++ toString i) DbBehavior.ok
          { carts := [], db := { orders := [], orderItems := [] } }).2.db =
        { orders := [], orderItems := [] } :=
  createOrder_empty_cart_fails "s1" (some formSample) "oid-1" 2026
    ⟨7, by decide⟩ (fun i => "item-" ++ toString i) DbBehavior.ok
    { carts := [], db := { orders := [], orderItems := [] } }
    (by decide) rfl

/-- C3: On any persistence failure during checkout — a failing `Beginx`, a
failing insert of the order row, a failing insert of any order-item row, or
a failing commit — the transaction is rolled back so no partial order or
order items exist, CreateOrder returns a persistence error, and the whole
state (database **and** the session's cart, with its lines and totals) is
exactly the initial one. -/
theorem createOrder_persistence_failure_rollback :
    ∀ (sid : String) (form : CheckoutForm) (oid : String) (year : Nat)
      (draw : Fin 1000000) (newItemId : Nat → String) (beh : DbBehavior)
      (st : CheckoutState),
      sid ≠ "" →
      (lookupCart st.carts sid).items ≠ [] →
      validateCheckout form = [] →
      (beh.beginFails = true ∨ beh.insertOrderFails = true ∨
        (∃ i, i < (lookupCart st.carts sid).items.length ∧
          beh.itemInsertFails i = true) ∨
        beh.commitFails = true) →
      ∃ e, (createOrder sid (some form) oid year draw newItemId beh st).1 =
            .error e ∧ e.isPersistence = true ∧
          (createOrder sid (some form) oid year draw newItemId beh st).2 = st := by
  intro sid form oid year draw newItemId beh st hsid hne hval hfail
  have hs : (sid == "") = false := by simpa using hsid
  obtain ⟨e0, hfind, he0⟩ := find?_of_items_ne_nil st.carts sid hne
  have hsnd : (getCartUnsafe st.carts sid).2 = st.carts := by
    unfold getCartUnsafe
    rw [hfind]
  have hfst : (getCartUnsafe st.carts sid).1 = lookupCart st.carts sid :=
    getCartUnsafe_fst _ _
  have hlen : ((lookupCart st.carts sid).items.length == 0) = false := by
    simp only [beq_eq_false_iff_ne, ne_eq, List.length_eq_zero]
    exact hne
  unfold createOrder
  simp only [hs, Bool.false_eq_true, if_false, hfst, hsnd, hlen, hval,
    List.length_nil, lt_self_iff_false, if_false]
  by_cases hb : beh.beginFails = true
  · simp only [hb, if_true]
    exact ⟨.databaseError, rfl, rfl, by first | rfl | trivial⟩
  · simp only [hb, Bool.false_eq_true, if_false]
    by_cases ho : beh.insertOrderFails = true
    · simp only [ho, if_true]
      exact ⟨.insertOrderFailed, rfl, rfl, by first | rfl | trivial⟩
    · simp only [ho, Bool.false_eq_true, if_false]
      by_cases hi :
          ((List.range (lookupCart st.carts sid).items.length).any
            beh.itemInsertFails) = true
      · simp only [hi, if_true]
        exact ⟨.insertItemsFailed, rfl, rfl, by first | rfl | trivial⟩
      · simp only [hi, Bool.false_eq_true, if_false]
        have hc : beh.commitFails = true := by
          rcases hfail with hf | hf | ⟨i, hilt, hif⟩ | hf
          · exact absurd hf hb
          · exact absurd hf ho
          · exact absurd
              (List.any_eq_true.mpr ⟨i, List.mem_range.mpr hilt, hif⟩) hi
          · exact hf
        simp only [hc, if_true]
        exact ⟨.commitFailed, rfl, rfl, by first | rfl | trivial⟩

/-- Witness for C3: a failing commit on a one-line cart leaves the state
untouched and surfaces a persistence error. -/
theorem createOrder_persistence_failure_rollback_witness :
    ∃ e, (createOrder "s1" (some formSample) "oid-1" 2026 ⟨7, by decide⟩
          (fun i => "item-" ++ toString i)
          { beginFails := false, insertOrderFails := false,
            itemInsertFails := fun _ => false, commitFails := true }
          { carts := [("s1", Cart.calculateTotals
              { emptyCart with items := [{ product := pSample, quantity := 1 }] })],
            db := { orders := [], orderItems := [] } }).1 = .error e ∧
        e.isPersistence = true ∧
      (createOrder "s1" (some formSample) "oid-1" 2026 ⟨7, by decide⟩
          (fun i => "item-" ++ toString i)
          { beginFails := false, insertOrderFails := false,
            itemInsertFails := fun _ => false, commitFails := true }
          { carts := [("s1", Cart.calculateTotals
              { emptyCart with items := [{ product := pSample, quantity := 1 }] })],
            db := { orders := [], orderItems := [] } }).2 =
        { carts := [("s1", Cart.calculateTotals
            { emptyCart with items := [{ product := pSample, quantity := 1 }] })],
          db := { orders := [], orderItems := [] } } :=
  createOrder_persistence_failure_rollback "s1" formSample "oid-1" 2026
    ⟨7, by decide⟩ (fun i => "item-" ++ toString i)
    { beginFails := false, insertOrderFails := false,
      itemInsertFails := fun _ => false, commitFails := true }
    { carts := [("s1", Cart.calculateTotals
        { emptyCart with items := [{ product := pSample, quantity := 1 }] })],
      db := { orders := [], orderItems := [] } }
    (by decide) (by decide) (by decide) (by right; right; right; rfl)

/-- C6: On a successful checkout the session's cart is cleared only after
the order transaction has committed — on every non-success outcome the
session's cart is observably unchanged — and the total in the success
response equals the cart's final total captured before the clear, which is
also the total persisted on the order row, so the response reports the
ordered amount even though the cart is empty afterward. -/
theorem createOrder_response_total_and_clear :
    ∀ (sid : String) (body : Option CheckoutForm) (oid : String) (year : Nat)
      (draw : Fin 1000000) (newItemId : Nat → String) (beh : DbBehavior)
      (st : CheckoutState),
      (∀ resp,
        (createOrder sid body oid year draw newItemId beh st).1 = .ok resp →
        resp.total = (lookupCart st.carts sid).finalTotal ∧
        (lookupCart
          (createOrder sid body oid year draw newItemId beh st).2.carts
          sid).items = [] ∧
        ∃ o, o ∈ (createOrder sid body oid year draw newItemId beh st).2.db.orders ∧
          o.id = resp.orderId ∧ o.orderNumber = resp.orderNumber ∧
          o.total = resp.total) ∧
      (∀ e,
        (createOrder sid body oid year draw newItemId beh st).1 = .error e →
        lookupCart (createOrder sid body oid year draw newItemId beh st).2.carts
            sid = lookupCart st.carts sid) := by
  intro sid body oid year draw newItemId beh st
  by_cases hsid : (sid == "") = true
  · simp only [createOrder, hsid, if_true]
    exact ⟨fun resp h => by simp at h, fun e h => by first | rfl | trivial⟩
  · cases hfind : st.carts.find? (fun e => e.1 == sid) with
    | none =>
      have hread : getCartUnsafe st.carts sid =
          (emptyCart, st.carts ++ [(sid, emptyCart)]) := by
        unfold getCartUnsafe
        rw [hfind]
      have hpres : lookupCart (st.carts ++ [(sid, emptyCart)]) sid =
          lookupCart st.carts sid := by
        have := lookupCart_getCartUnsafe_snd st.carts sid
        rw [hread] at this
        exact this
      simp only [createOrder, hsid, Bool.false_eq_true, if_false, hread,
        emptyCart, List.length_nil]
      exact ⟨fun resp h => by simp at h, fun e h => hpres⟩
    | some entry =>
      have hread : getCartUnsafe st.carts sid = (entry.2, st.carts) := by
        unfold getCartUnsafe
        rw [hfind]
      have hlook : lookupCart st.carts sid = entry.2 := by
        unfold lookupCart
        rw [hfind]
      have hsome : (st.carts.find? (fun e => e.1 == sid)).isSome := by
        rw [hfind]
        rfl
      simp only [createOrder, hsid, Bool.false_eq_true, if_false, hread]
      by_cases hlen : (entry.2.items.length == 0) = true
      · simp only [hlen, if_true]
        exact ⟨fun resp h => by simp at h, fun e h => by first | rfl | trivial⟩
      · simp only [hlen, Bool.false_eq_true, if_false]
        cases body with
        | none => exact ⟨fun resp h => by simp at h, fun e h => rfl⟩
        | some form =>
          by_cases hval : 0 < (validateCheckout form).length
          · simp only [hval, if_true]
            exact ⟨fun resp h => by simp at h, fun e h => by first | rfl | trivial⟩
          · simp only [hval, if_false]
            by_cases hb : beh.beginFails = true
            · simp only [hb, if_true]
              exact ⟨fun resp h => by simp at h, fun e h => by first | rfl | trivial⟩
            · simp only [hb, Bool.false_eq_true, if_false]
              by_cases ho : beh.insertOrderFails = true
              · simp only [ho, if_true]
                exact ⟨fun resp h => by simp at h, fun e h => by first | rfl | trivial⟩
              · simp only [ho, Bool.false_eq_true, if_false]
                by_cases hi : ((List.range entry.2.items.length).any
                    beh.itemInsertFails) = true
                · simp only [hi, if_true]
                  exact ⟨fun resp h => by simp at h, fun e h => by first | rfl | trivial⟩
                · simp only [hi, Bool.false_eq_true, if_false]
                  by_cases hc : beh.commitFails = true
                  · simp only [hc, if_true]
                    exact ⟨fun resp h => by simp at h, fun e h => by first | rfl | trivial⟩
                  · simp only [hc, Bool.false_eq_true, if_false]
                    refine ⟨fun resp h => ?_, fun e h => by simp at h⟩
                    have hresp := (Except.ok.inj h).symm
                    subst hresp
                    refine ⟨by rw [hlook], ?_, ?_⟩
                    · have := lookupCart_setCart st.carts sid
                        (Cart.calculateTotals { entry.2 with items := [] }) hsome
                      simp only [this]
                      exact calculateTotals_items _
                    · exact ⟨_, List.mem_append_right _ (List.mem_singleton_self _),
                        rfl, rfl, rfl⟩

/-- Witness for C6 (success side): a checkout of a one-line cart reports
total 12500 and leaves the session cart empty. -/
theorem createOrder_response_total_and_clear_witness :
    ({ orderId := "oid-1", orderNumber := orderNumberStr 2026 ⟨7, by decide⟩,
       total := 12500 } : CheckoutResponse).total =
      (lookupCart [("s1", Cart.calculateTotals
          { emptyCart with items := [{ product := pSample, quantity := 1 }] })]
        "s1").finalTotal ∧
    (lookupCart (createOrder "s1" (some formSample) "oid-1" 2026 ⟨7, by decide⟩
        (fun i => "item-" ++ toString i) DbBehavior.ok
        { carts := [("s1", Cart.calculateTotals
            { emptyCart with items := [{ product := pSample, quantity := 1 }] })],
          db := { orders := [], orderItems := [] } }).2.carts "s1").items = [] ∧
    ∃ o, o ∈ (createOrder "s1" (some formSample) "oid-1" 2026 ⟨7, by decide⟩
        (fun i => "item-" ++ toString i) DbBehavior.ok
        { carts := [("s1", Cart.calculateTotals
            { emptyCart with items := [{ product := pSample, quantity := 1 }] })],
          db := { orders := [], orderItems := [] } }).2.db.orders ∧
      o.id = "oid-1" ∧ o.orderNumber = orderNumberStr 2026 ⟨7, by decide⟩ ∧
      o.total = 12500 :=
  (createOrder_response_total_and_clear "s1" (some formSample) "oid-1" 2026
      ⟨7, by decide⟩ (fun i => "item-" ++ toString i) DbBehavior.ok
      { carts := [("s1", Cart.calculateTotals
          { emptyCart with items := [{ product := pSample, quantity := 1 }] })],
        db := { orders := [], orderItems := [] } }).1
    { orderId := "oid-1", orderNumber := orderNumberStr 2026 ⟨7, by decide⟩,
      total := 12500 }
    rfl

/-! ## Field lemmas: each validation block reports its rule -/

theorem nameErrors_fields (form : CheckoutForm) :
    (nameErrors form).map (fun d => d.field) =
      (if specNameOk form then [] else ["name"]) := by
  by_cases h : form.name.length < 2
  · have hs : specNameOk form = false := by
      simp only [specNameOk, decide_eq_false_iff_not]
      omega
    simp [nameErrors, h, hs]
  · have hs : specNameOk form = true := by
      simp only [specNameOk, decide_eq_true_eq]
      omega
    simp [nameErrors, h, hs]

theorem phoneErrors_fields (form : CheckoutForm) :
    (phoneErrors form).map (fun d => d.field) =
      (if specPhoneOk form then [] else ["phone"]) := by
  by_cases h1 : (digitsOf form.phone).length < 10
  · have hd : decide (10 ≤ (digitsOf form.phone).length) = false := by
      simp only [decide_eq_false_iff_not]
      omega
    have hs : specPhoneOk form = false := by
      simp [specPhoneOk, hd]
    simp [phoneErrors, h1, hs]
  · have hd : decide (10 ≤ (digitsOf form.phone).length) = true := by
      simp only [decide_eq_true_eq]
      omega
    by_cases h2 : phoneStartOk form.phone = true
    · have hs : specPhoneOk form = true := by
        simp [specPhoneOk, hd, h2]
      simp [phoneErrors, h1, h2, hs]
    · have h2' : phoneStartOk form.phone = false :=
        Bool.eq_false_iff.mpr h2
      have hs : specPhoneOk form = false := by
        simp [specPhoneOk, h2']
      simp [phoneErrors, h1, h2', hs]

theorem emailErrors_fields (form : CheckoutForm) :
    (emailErrors form).map (fun d => d.field) =
      (if specEmailOk form then [] else ["email"]) := by
  by_cases h : emailValid form.email = true
  · simp [emailErrors, specEmailOk, h]
  · have h' : emailValid form.email = false := Bool.eq_false_iff.mpr h
    simp [emailErrors, specEmailOk, h']

theorem addressErrors_fields (form : CheckoutForm) :
    (addressErrors form).map (fun d => d.field) =
      (if specAddressOk form then [] else ["address"]) := by
  by_cases h : form.address.length < 10
  · have hs : specAddressOk form = false := by
      simp only [specAddressOk, decide_eq_false_iff_not]
      omega
    simp [addressErrors, h, hs]
  · have hs : specAddressOk form = true := by
      simp only [specAddressOk, decide_eq_true_eq]
      omega
    simp [addressErrors, h, hs]

theorem companyErrors_fields (form : CheckoutForm) :
    (companyErrors form).map (fun d => d.field) =
      (if specCompanyOk form then [] else ["companyName"]) := by
  unfold companyErrors specCompanyOk
  cases form.companyName with
  | none => simp
  | some cn =>
    by_cases h : isBlank cn = true <;> simp [h]

theorem binErrors_fields (form : CheckoutForm) :
    (binErrors form).map (fun d => d.field) =
      (if specBinOk form then [] else ["bin"]) := by
  unfold binErrors specBinOk
  cases form.bin with
  | none => simp
  | some b =>
    by_cases h : (digitsOf b).length = 12 <;> simp [h]

theorem legalErrors_fields (form : CheckoutForm) :
    (legalErrors form).map (fun d => d.field) =
      (if form.customerType == "legal" then
        (if specCompanyOk form then [] else ["companyName"]) ++
          (if specBinOk form then [] else ["bin"])
       else []) := by
  unfold legalErrors
  by_cases h : (form.customerType == "legal") = true <;>
    simp [h, companyErrors_fields, binErrors_fields]

/-- A checkout form violating every rule at once. -/
def badFormSample : CheckoutForm :=
  { customerType := "legal", name := "A", phone := "123", email := "bad",
    companyName := some " ", bin := some "12ab", address := "short",
    comment := none }

/-- A one-line sample cart. -/
def cartSample : Cart :=
  Cart.calculateTotals
    { emptyCart with items := [{ product := pSample, quantity := 1 }] }

/-- A checkout state holding the sample cart under session `s1` over an
empty order store. -/
def stSample : CheckoutState :=
  { carts := [("s1", cartSample)], db := { orders := [], orderItems := [] } }

/-- C8: The checkout validator evaluates every rule without
short-circuiting: the `{field, message}` entries of the result are exactly
one entry per violated rule (name, phone, email, address, and for legal
customers companyName and BIN), all returned together in rule order; and
when any entry is present CreateOrder rejects the request and the order
store is untouched. -/
theorem validation_reports_all_violations :
    (∀ form : CheckoutForm,
      (validateCheckout form).map (fun d => d.field) =
        specViolatedFields form) ∧
    (∀ (form : CheckoutForm) (sid oid : String) (year : Nat)
        (draw : Fin 1000000) (newItemId : Nat → String) (beh : DbBehavior)
        (st : CheckoutState),
        validateCheckout form ≠ [] →
        (∃ e, (createOrder sid (some form) oid year draw newItemId beh st).1 =
          .error e) ∧
        (createOrder sid (some form) oid year draw newItemId beh st).2.db =
          st.db) := by
  constructor
  · intro form
    unfold validateCheckout specViolatedFields
    simp only [List.map_append, nameErrors_fields, phoneErrors_fields,
      emailErrors_fields, addressErrors_fields, legalErrors_fields]
  · intro form sid oid year draw newItemId beh st hval
    by_cases hsid : (sid == "") = true
    · simp only [createOrder, hsid, if_true]
      exact ⟨⟨.missingSession, rfl⟩, by first | rfl | trivial⟩
    · cases hfind : st.carts.find? (fun e => e.1 == sid) with
      | none =>
        have hread : getCartUnsafe st.carts sid =
            (emptyCart, st.carts ++ [(sid, emptyCart)]) := by
          unfold getCartUnsafe
          rw [hfind]
        simp only [createOrder, hsid, Bool.false_eq_true, if_false, hread,
          emptyCart, List.length_nil]
        exact ⟨⟨.emptyCart, rfl⟩, rfl⟩
      | some entry =>
        have hread : getCartUnsafe st.carts sid = (entry.2, st.carts) := by
          unfold getCartUnsafe
          rw [hfind]
        simp only [createOrder, hsid, Bool.false_eq_true, if_false, hread]
        by_cases hlen : (entry.2.items.length == 0) = true
        · simp only [hlen, if_true]
          exact ⟨⟨.emptyCart, rfl⟩, by first | rfl | trivial⟩
        · have hpos : 0 < (validateCheckout form).length :=
            List.length_pos.mpr hval
          simp only [hlen, Bool.false_eq_true, if_false, hpos, if_true]
          exact ⟨⟨.validationFailed (validateCheckout form), rfl⟩,
            by first | rfl | trivial⟩

/-- Witness for C8: the all-violations form is rejected and the order
store is untouched. -/
theorem validation_reports_all_violations_witness :
    (∃ e, (createOrder "s1" (some badFormSample) "oid-1" 2026 ⟨7, by decide⟩
        (fun i => "item-" ++ toString i) DbBehavior.ok stSample).1 =
      .error e) ∧
    (createOrder "s1" (some badFormSample) "oid-1" 2026 ⟨7, by decide⟩
        (fun i => "item-" ++ toString i) DbBehavior.ok stSample).2.db =
      stSample.db :=
  validation_reports_all_violations.2 badFormSample "s1" "oid-1" 2026
    ⟨7, by decide⟩ (fun i => "item-" ++ toString i) DbBehavior.ok stSample
    (by decide)

/-- A one-line sample cart recording quantity 5 of the sample product. -/
def cartSample5 : Cart :=
  Cart.calculateTotals
    { emptyCart with items := [{ product := pSample, quantity := 5 }] }

/-- A checkout state holding `cartSample5` under session `s1`. -/
def stSample5 : CheckoutState :=
  { carts := [("s1", cartSample5)], db := { orders := [], orderItems := [] } }

/-- C1 counterexample: the catalog's current stock for product `p1` has
dropped to 2 while the session's cart line records quantity 5, the form is
valid and no driver failure occurs — yet `CreateOrder` does **not** fail
with InsufficientStock: it succeeds and writes the order row.  There is no
stock re-check in the checkout path (the function does not even consult a
catalog). -/
theorem createOrder_no_stock_recheck_counterexample :
    (lookupProduct [{ pSample with stock := 2 }] "p1").map Product.stock =
      some 2 ∧
    (lookupCart stSample5.carts "s1").items.map
      (fun i => (i.id, i.quantity)) = [("p1", 5)] ∧
    ∃ resp,
      (createOrder "s1" (some formSample) "oid-1" 2026 ⟨7, by decide⟩
        (fun i => "item-" ++ toString i) DbBehavior.ok stSample5).1 =
        .ok resp ∧
      (createOrder "s1" (some formSample) "oid-1" 2026 ⟨7, by decide⟩
        (fun i => "item-" ++ toString i) DbBehavior.ok
        stSample5).2.db.orders.length = 1 :=
  ⟨rfl, rfl,
   ⟨{ orderId := "oid-1", orderNumber := orderNumberStr 2026 ⟨7, by decide⟩,
      total := 62500 }, rfl, rfl⟩⟩

/-- C1 amended: CreateOrder performs **no** stock re-check against the
catalog before persisting: for every checkout attempt on a non-empty cart
with a valid form and no persistence failure, the order is persisted even
when some cart line's recorded quantity exceeds the current catalog stock
of its product; no InsufficientStock outcome exists on the checkout
path. -/
theorem createOrder_no_stock_recheck :
    ∀ (catalog : List Product) (sid : String) (form : CheckoutForm)
      (oid : String) (year : Nat) (draw : Fin 1000000)
      (newItemId : Nat → String) (st : CheckoutState),
      sid ≠ "" →
      (lookupCart st.carts sid).items ≠ [] →
      validateCheckout form = [] →
      (∃ i ∈ (lookupCart st.carts sid).items,
        ∀ p, lookupProduct catalog i.id = some p → p.stock < i.quantity) →
      ∃ resp,
        (createOrder sid (some form) oid year draw newItemId
          DbBehavior.ok st).1 = .ok resp ∧
        ∃ row,
          (createOrder sid (some form) oid year draw newItemId
            DbBehavior.ok st).2.db.orders = st.db.orders ++ [row] ∧
          row.total = (lookupCart st.carts sid).finalTotal := by
  intro catalog sid form oid year draw newItemId st hsid hne hval hstock
  have hs : (sid == "") = false := by
    simpa using hsid
  obtain ⟨entry, hfind, hentry⟩ := find?_of_items_ne_nil st.carts sid hne
  have hread : getCartUnsafe st.carts sid = (entry.2, st.carts) := by
    unfold getCartUnsafe
    rw [hfind]
  have hlen : (entry.2.items.length == 0) = false := by
    rw [beq_eq_false_iff_ne]
    intro h0
    apply hne
    rw [← hentry]
    exact List.length_eq_zero.mp h0
  have hi : ((List.range entry.2.items.length).any (fun _ => false)) = false := by
    simp
  unfold createOrder
  simp only [hs, Bool.false_eq_true, if_false, hread, hlen, hval,
    List.length_nil, lt_self_iff_false, if_false, DbBehavior.ok, hi]
  exact ⟨_, rfl, _, rfl, by rw [hentry]⟩

/-- Witness for the amended C1: the concrete dropped-stock scenario of the
counterexample satisfies every hypothesis, and the order is persisted. -/
theorem createOrder_no_stock_recheck_witness :
    ∃ resp,
      (createOrder "s1" (some formSample) "oid-1" 2026 ⟨7, by decide⟩
        (fun i => "item-" ++ toString i) DbBehavior.ok stSample5).1 =
        .ok resp ∧
      ∃ row,
        (createOrder "s1" (some formSample) "oid-1" 2026 ⟨7, by decide⟩
          (fun i => "item-" ++ toString i) DbBehavior.ok
          stSample5).2.db.orders = stSample5.db.orders ++ [row] ∧
        row.total = (lookupCart stSample5.carts "s1").finalTotal :=
  createOrder_no_stock_recheck [{ pSample with stock := 2 }] "s1" formSample
    "oid-1" 2026 ⟨7, by decide⟩ (fun i => "item-" ++ toString i) stSample5
    (by decide) (by decide) (by decide)
    ⟨{ product := pSample, quantity := 5 }, by decide,
     fun p hp => by
       have hp' : some ({ pSample with stock := 2 } : Product) = some p := hp
       cases Option.some.inj hp'
       decide⟩

/-- A state with one-line carts for two sessions over an empty order
store. -/
def stTwoSessions : CheckoutState :=
  { carts := [("s1", cartSample), ("s2", cartSample)],
    db := { orders := [], orderItems := [] } }

/-- C9 counterexample: two distinct successful checkouts (order ids
`oid-1` ≠ `oid-2`) whose `rand.Intn(1000000)` draws coincide in the same
year receive the **same** order number, and both rows are accepted by the
store (the schema has no uniqueness constraint on `order_number`). -/
theorem orderNumber_collision_counterexample :
    ∃ resp1 resp2 : CheckoutResponse,
      (createOrder "s1" (some formSample) "oid-1" 2026 ⟨7, by decide⟩
        (fun i => "a-" ++ toString i) DbBehavior.ok stTwoSessions).1 =
        .ok resp1 ∧
      (createOrder "s2" (some formSample) "oid-2" 2026 ⟨7, by decide⟩
        (fun i => "b-" ++ toString i) DbBehavior.ok
        (createOrder "s1" (some formSample) "oid-1" 2026 ⟨7, by decide⟩
          (fun i => "a-" ++ toString i) DbBehavior.ok stTwoSessions).2).1 =
        .ok resp2 ∧
      resp1.orderId ≠ resp2.orderId ∧
      resp1.orderNumber = resp2.orderNumber ∧
      ((createOrder "s2" (some formSample) "oid-2" 2026 ⟨7, by decide⟩
        (fun i => "b-" ++ toString i) DbBehavior.ok
        (createOrder "s1" (some formSample) "oid-1" 2026 ⟨7, by decide⟩
          (fun i => "a-" ++ toString i) DbBehavior.ok
          stTwoSessions).2).2.db.orders.map
        (fun o => o.orderNumber)).length = 2 ∧
      ((createOrder "s2" (some formSample) "oid-2" 2026 ⟨7, by decide⟩
        (fun i => "b-" ++ toString i) DbBehavior.ok
        (createOrder "s1" (some formSample) "oid-1" 2026 ⟨7, by decide⟩
          (fun i => "a-" ++ toString i) DbBehavior.ok
          stTwoSessions).2).2.db.orders.map
        (fun o => o.orderNumber)).Nodup = False :=
  ⟨{ orderId := "oid-1", orderNumber := orderNumberStr 2026 ⟨7, by decide⟩,
     total := 12500 },
   { orderId := "oid-2", orderNumber := orderNumberStr 2026 ⟨7, by decide⟩,
     total := 12500 },
   rfl, rfl, by decide, rfl, rfl, by
     simp only [eq_iff_iff, iff_false]
     intro hn
     exact (List.nodup_cons.mp hn).1 (by decide)⟩

theorem digitCharFin_inj :
    ∀ x y : Fin 10, digitChar x.val = digitChar y.val → x = y := by
  decide

theorem pad6_data_inj (d1 d2 : Fin 1000000)
    (h : (pad6 d1).data = (pad6 d2).data) : d1 = d2 := by
  unfold pad6 at h
  simp only [List.cons.injEq, and_true] at h
  obtain ⟨h1, h2, h3, h4, h5, h6⟩ := h
  have e1 := congrArg Fin.val (digitCharFin_inj
    ⟨d1.val / 100000 % 10, Nat.mod_lt _ (by decide)⟩
    ⟨d2.val / 100000 % 10, Nat.mod_lt _ (by decide)⟩ h1)
  have e2 := congrArg Fin.val (digitCharFin_inj
    ⟨d1.val / 10000 % 10, Nat.mod_lt _ (by decide)⟩
    ⟨d2.val / 10000 % 10, Nat.mod_lt _ (by decide)⟩ h2)
  have e3 := congrArg Fin.val (digitCharFin_inj
    ⟨d1.val / 1000 % 10, Nat.mod_lt _ (by decide)⟩
    ⟨d2.val / 1000 % 10, Nat.mod_lt _ (by decide)⟩ h3)
  have e4 := congrArg Fin.val (digitCharFin_inj
    ⟨d1.val / 100 % 10, Nat.mod_lt _ (by decide)⟩
    ⟨d2.val / 100 % 10, Nat.mod_lt _ (by decide)⟩ h4)
  have e5 := congrArg Fin.val (digitCharFin_inj
    ⟨d1.val / 10 % 10, Nat.mod_lt _ (by decide)⟩
    ⟨d2.val / 10 % 10, Nat.mod_lt _ (by decide)⟩ h5)
  have e6 := congrArg Fin.val (digitCharFin_inj
    ⟨d1.val % 10, Nat.mod_lt _ (by decide)⟩
    ⟨d2.val % 10, Nat.mod_lt _ (by decide)⟩ h6)
  simp only at e1 e2 e3 e4 e5 e6
  have hlt1 := d1.isLt
  have hlt2 := d2.isLt
  exact Fin.ext (by omega)

/-- C9 amended: the generated order number is determined by the sampled
year and the `rand.Intn(1000000)` draw as `ORD-<year>-<%06d draw>`; within
one year, two checkouts receive distinct order numbers **iff** their draws
differ.  Since nothing — neither the unseeded generator nor the schema,
which lacks a uniqueness constraint on `order_number` — prevents two
successful checkouts from obtaining the same draw, order numbers are not
unique across created orders (see the counterexample). -/
theorem orderNumberStr_inj_iff :
    ∀ (year : Nat) (d1 d2 : Fin 1000000),
      orderNumberStr year d1 = orderNumberStr year d2 ↔ d1 = d2 := by
  intro year d1 d2
  constructor
  · intro h
    apply pad6_data_inj
    have hl := congrArg String.data h
    simp only [orderNumberStr, String.data_append, List.append_assoc] at hl
    exact List.append_cancel_left
      (List.append_cancel_left (List.append_cancel_left hl))
  · intro h
    rw [h]

end NobleGroup
